import Mathlib

/-!
Shallow embedding of the request-orchestration core of the FutureGen
repository (src/services/geminiService.ts, with the enumerations of
src/types.ts), together with theorems settling the frozen claims about it.

Conventions of the embedding:
- TypeScript numbers that hold pixel dimensions are `Nat`; the fractional
  arithmetic of aspect ratios and of `Math.round` is carried out in `ℚ`.
- The remote service, the DOM image decoder and the canvas encoder are
  opaque effects; each is represented by the outcome value it hands back
  (`Except JsError _`), and the surrounding control flow is translated
  from the source.
- A rejected promise / thrown error is `Except.error`; JavaScript
  truthiness of optional strings and numbers is modelled explicitly
  (`truthyStr`, `truthyNat`: `undefined`, `""` and `0` are falsy).
-/

namespace FutureGen

/-- The `AspectRatio` string enum of src/types.ts. -/
inductive AspectRatio where
  | SQUARE
  | PORTRAIT
  | LANDSCAPE
  | WIDE_LANDSCAPE
  | WIDE_PORTRAIT
  | SAME_AS_SOURCE
deriving DecidableEq, Repr

/-- The raw string value of each `AspectRatio` member (TS string enums are
their raw strings on the wire). -/
def AspectRatio.raw : AspectRatio → String
  | .SQUARE => "1:1"
  | .PORTRAIT => "3:4"
  | .LANDSCAPE => "4:3"
  | .WIDE_LANDSCAPE => "16:9"
  | .WIDE_PORTRAIT => "9:16"
  | .SAME_AS_SOURCE => "SAME_AS_SOURCE"

/-- The `ReferenceMode` enum of src/types.ts. -/
inductive ReferenceMode where
  | POSE
  | DRESS
  | EXPRESSION
  | STYLE
  | BACKGROUND
  | COMPOSITION
  | CUSTOM
deriving DecidableEq, Repr

/-- An entry of the `supported` array inside `getClosestSupportedRatio`
(src/services/geminiService.ts lines 7-13). -/
structure RatioEntry where
  str : String
  val : ℚ
deriving DecidableEq, Repr

/-- The fixed `supported` array, in source order; the decimal literals
1.0, 0.75, 1.33, 0.5625, 1.77 are the rationals below. -/
def supportedRatios : List RatioEntry :=
  [⟨"1:1", 1⟩, ⟨"3:4", 3/4⟩, ⟨"4:3", 133/100⟩, ⟨"9:16", 9/16⟩, ⟨"16:9", 177/100⟩]

/-- `getClosestSupportedRatio` (lines 5-19): `ratio = width / height`, then
`supported.reduce((prev, curr) => |curr.val - ratio| < |prev.val - ratio| ? curr : prev)`.
JavaScript `reduce` with no seed starts from the first element and folds the
tail, so the earlier entry survives an exact tie. -/
def getClosestSupportedRatio (width height : ℚ) : String :=
  let ratio := width / height
  let best : RatioEntry :=
    match supportedRatios with
    | [] => ⟨"", 0⟩
    | e :: es =>
        es.foldl (fun prev curr =>
          if |curr.val - ratio| < |prev.val - ratio| then curr else prev) e
  best.str

/-- `Math.round` of a nonnegative JavaScript number: halves round up. -/
def jsRound (x : ℚ) : ℤ := ⌊x + 1/2⌋

/-- `MAX_SIZE` of `compressImage` (line 31). -/
def MAX_SIZE : ℕ := 1024

/-- The dimension scaling of `compressImage` (lines 27-43): when either
decoded dimension exceeds `MAX_SIZE`, the longer one becomes `MAX_SIZE` and
the other is `Math.round`-scaled; otherwise both are kept. Returns
(width, height). -/
def compressDims (width height : ℕ) : ℕ × ℕ :=
  if width > MAX_SIZE ∨ height > MAX_SIZE then
    if width > height then
      (MAX_SIZE, (jsRound ((height * MAX_SIZE : ℚ) / (width : ℚ))).toNat)
    else
      ((jsRound ((width * MAX_SIZE : ℚ) / (height : ℚ))).toNat, MAX_SIZE)
  else (width, height)

/-- The value resolved by `compressImage` (lines 22-61): the canvas
re-encoding is opaque (`encoded` stands for the base64 payload the canvas
produces), the dimensions follow `compressDims`, and the mime type is the
literal `image/jpeg` of line 55. -/
structure CompressedImage where
  data : String
  mimeType : String
  width : ℕ
  height : ℕ
deriving DecidableEq, Repr

/-- `compressImage` on a successfully decoded image of the given pixel
dimensions. Decode failure and a missing canvas context reject the promise
instead and are represented as `Except.error` outcomes where this function
is consumed. -/
def compressImage (width height : ℕ) (encoded : String) : CompressedImage :=
  let dims := compressDims width height
  { data := encoded, mimeType := "image/jpeg", width := dims.1, height := dims.2 }

/-- A thrown JavaScript error as `retryOperation` inspects it (lines 71-74):
`message`, `status`, `code`, and `stringified` standing for
`JSON.stringify(error)`. -/
structure JsError where
  message : Option String
  stringified : String
  status : Option ℕ
  code : Option ℕ
deriving DecidableEq, Repr

/-- `const msg = error.message || JSON.stringify(error)` (line 73): an
absent or empty `message` falls back to the stringified error. -/
def errMsg (e : JsError) : String :=
  match e.message with
  | some m => if m = "" then e.stringified else m
  | none => e.stringified

/-- JavaScript `String.prototype.includes`. -/
def includes (s pat : String) : Bool := decide (pat.toList <:+: s.toList)

/-- The rate-limit classifier of line 74, with the source's operand order. -/
def isRateLimit (e : JsError) : Bool :=
  includes (errMsg e) "429" || e.status == some 429 || e.code == some 429 ||
    includes (errMsg e) "quota" || includes (errMsg e) "RESOURCE_EXHAUSTED"

/-- What a run of `retryOperation` did: its overall outcome, how many times
the wrapped operation was invoked, and the delays (ms) slept between
consecutive invocations, in order. -/
structure RetryTrace (α : Type) where
  result : Except JsError α
  calls : ℕ
  delays : List ℕ
deriving Repr

/-- The `for` loop of `retryOperation` (lines 68-84) from attempt index `i`:
a success returns; a failure retries after `initialDelay * 2 ^ i` only when
rate-limit-classified and `i < retries - 1`, and is re-thrown otherwise. -/
def retryFrom {α : Type} (op : ℕ → Except JsError α)
    (retries initialDelay i : ℕ) : RetryTrace α :=
  match op i with
  | .ok a => ⟨.ok a, 1, []⟩
  | .error e =>
    if h : isRateLimit e = true ∧ i + 1 < retries then
      let rest := retryFrom op retries initialDelay (i + 1)
      ⟨rest.result, rest.calls + 1, initialDelay * 2 ^ i :: rest.delays⟩
    else ⟨.error e, 1, []⟩
termination_by retries - i
decreasing_by omega

/-- The `undefined` value `throw lastError` re-throws when `retries = 0`
makes the loop body unreachable (line 85). -/
def undefinedThrown : JsError := ⟨none, "undefined", none, none⟩

/-- `retryOperation` (lines 66-86). `op i` is the outcome of the `i`-th
invocation of the wrapped operation (the remote call is an opaque effect,
so each invocation's outcome is part of the input). -/
def retryOperation {α : Type} (op : ℕ → Except JsError α)
    (retries initialDelay : ℕ) : RetryTrace α :=
  if retries = 0 then ⟨.error undefinedThrown, 0, []⟩
  else retryFrom op retries initialDelay 0

/-- The error thrown when `process.env.API_KEY` is absent (lines 94, 160). -/
def apiKeyMissing : JsError :=
  ⟨some "API Key not found in environment variables.", "", none, none⟩

/-- The per-mode analysis question of `extractFeatureDescription`
(lines 99-126). In `CUSTOM` mode an absent or empty `customPrompt` is falsy
and selects the generic fallback question; the `default` arm of the switch
is unreachable over the closed enum. -/
def extractionPrompt (mode : ReferenceMode) (customPrompt : Option String) : String :=
  match mode with
  | .POSE => "Analyze the image and describe the body pose. Focus on the position of arms, legs, head tilt, and spine curvature. Describe it in a way that an artist could use to pose a model."
  | .DRESS => "Analyze the clothing in this image. Provide an EXTREMELY DETAILED technical description of the outfit, including specific materials, cuts, textures, patterns, and how it drapes. Ignore the person, focus on the clothes."
  | .EXPRESSION => "Describe the facial expression and emotion shown in this image. What is the mood?"
  | .STYLE => "Describe the art style, lighting, and medium of this image."
  | .BACKGROUND => "Describe the setting, background elements, and lighting environment of this scene."
  | .COMPOSITION => "Describe the camera angle, framing, and composition of this shot."
  | .CUSTOM =>
    match customPrompt with
    | some c =>
        if c = "" then "Describe the key distinctive visual attributes of this image."
        else "Analyze the image and provide a detailed description of the following feature: \"" ++ c ++ "\". Describe it specifically so it can be visually replicated."
    | none => "Describe the key distinctive visual attributes of this image."

/-- The `text` field of a `GenerateContentResponse` as read on line 140
(`response.text || ""`). -/
structure AnalysisResponse where
  text : Option String
deriving DecidableEq, Repr

/-- `extractFeatureDescription` (lines 88-145). Control flow from the
source: the credential check throws first; `await compressImage(...)` on
line 97 sits OUTSIDE the `try` of line 128, so a compression failure
rejects the returned promise; only the `retryOperation`-wrapped remote
call is inside the `try`, whose `catch` returns `""`. `attempts i` is the
outcome of the `i`-th invocation of the remote analysis call. -/
def extractFeatureDescription (mode : ReferenceMode) (customPrompt : Option String)
    (apiKey : Option String)
    (compressOutcome : Except JsError CompressedImage)
    (attempts : ℕ → Except JsError AnalysisResponse) : Except JsError String :=
  match apiKey with
  | none => .error apiKeyMissing
  | some _ =>
    match compressOutcome with
    | .error e => .error e
    | .ok _processed =>
      let _promptText := extractionPrompt mode customPrompt
      match (retryOperation attempts 3 2000).result with
      | .error _e => .ok ""
      | .ok response => .ok (response.text.getD "")

/-- JavaScript truthiness of an optional number (`undefined` and `0` are
falsy), as used on line 176 for `sourceWidth && sourceHeight`. -/
def truthyNat : Option ℕ → Bool
  | some n => n != 0
  | none => false

/-- JavaScript truthiness of an optional string (`undefined` and `""` are
falsy). -/
def truthyStr : Option String → Bool
  | some s => s != ""
  | none => false

/-- The aspect-ratio resolution step of `generateFutureImage`
(lines 166-180), as the wire string placed in the outbound request: when
`SAME_AS_SOURCE` is requested and both dimensions are truthy it is replaced
by `getClosestSupportedRatio`, when `SAME_AS_SOURCE` is requested otherwise
it falls back to `SQUARE`, and any concrete ratio passes through. -/
def resolveTargetRatio (configRatio : AspectRatio)
    (sourceWidth sourceHeight : Option ℕ) : String :=
  if configRatio = .SAME_AS_SOURCE ∧ truthyNat sourceWidth ∧ truthyNat sourceHeight then
    getClosestSupportedRatio ((sourceWidth.getD 0 : ℕ) : ℚ) ((sourceHeight.getD 0 : ℕ) : ℚ)
  else if configRatio = .SAME_AS_SOURCE then AspectRatio.SQUARE.raw
  else configRatio.raw

/-- The Imagen-path mapping of the resolved ratio into that model's
discrete set (lines 190-193), a chain of conditionals ending in `9:16`. -/
def imagenAspect (t : String) : String :=
  if t = AspectRatio.SQUARE.raw then "1:1"
  else if t = AspectRatio.LANDSCAPE.raw then "4:3"
  else if t = AspectRatio.WIDE_LANDSCAPE.raw then "16:9"
  else if t = AspectRatio.PORTRAIT.raw then "3:4"
  else "9:16"

/-- A part of the outbound edit request (lines 231-247, 310). -/
inductive RequestPart where
  | inlineData (data : String) (mimeType : String)
  | text (content : String)
deriving DecidableEq, Repr

/-- The parts assembly of the Gemini editing path (lines 230-247 and 310):
push the compressed source image, then the compressed reference image when
one is present, then the instruction text. -/
def buildEditParts (processedSource : CompressedImage)
    (processedRef : Option CompressedImage) (instruction : String) :
    List RequestPart :=
  let parts0 : List RequestPart := []
  let parts1 := parts0 ++ [.inlineData processedSource.data processedSource.mimeType]
  let parts2 :=
    match processedRef with
    | some r => parts1 ++ [.inlineData r.data r.mimeType]
    | none => parts1
  parts2 ++ [.text instruction]

/-- `const feature = config.customReferencePrompt || "feature"` (line 295):
an absent or empty custom prompt is falsy and yields the literal string
`feature`. -/
def customFeature (customReferencePrompt : Option String) : String :=
  match customReferencePrompt with
  | some s => if s = "" then "feature" else s
  | none => "feature"

/-- The mode-specific transfer directive appended to the dual-image
instruction (the `switch` of lines 265-300); an absent mode matches no
case and appends nothing. -/
def modeDirective (mode : Option ReferenceMode)
    (customReferencePrompt : Option String) : String :=
  match mode with
  | some .POSE =>
      "\nMODE: POSE MATCHING\n"
        ++ "1. The character MUST adopt the EXACT pose of the Reference Image.\n"
        ++ "2. ALIGNMENT: Match limb angles, head tilt, and spine curvature to the reference.\n"
        ++ "3. REFERENCE TRUTH: The Reference Image is the ground truth for the pose. Follow it strictly.\n"
  | some .DRESS =>
      "\nMODE: OUTFIT TRANSFER\n"
        ++ "1. TARGET: Create an EXACT DIGITAL REPLICA of the outfit from the Reference Image on the Source Character.\n"
        ++ "2. DETAILS: Match the fabric texture, gloss, material weight, seams, buttons, and accessories pixel-for-pixel where possible.\n"
        ++ "3. FIT: Draping must follow the source character's body naturally but strictly adhere to the reference design.\n"
  | some .EXPRESSION =>
      "\nMODE: EXPRESSION MATCHING\n"
        ++ "1. Adjust the Source Character's facial expression to match the emotion of the Reference Image.\n"
  | some .STYLE =>
      "\nMODE: STYLE TRANSFER\n"
        ++ "1. Re-render the Source Character using the artistic style and medium of the Reference Image.\n"
  | some .BACKGROUND =>
      "\nMODE: BACKGROUND TRANSFER\n"
        ++ "1. Place the Source Character into a setting that matches the Reference Image's background.\n"
  | some .COMPOSITION =>
      "\nMODE: COMPOSITION MATCHING\n"
        ++ "1. Frame the Source Character similarly to the Reference Image (camera angle, framing).\n"
  | some .CUSTOM =>
      "\nMODE: CUSTOM TRANSFER (" ++ customFeature customReferencePrompt ++ ")\n"
        ++ ("1. Transfer the " ++ customFeature customReferencePrompt ++ " from the Reference Image to the Source Character.\n")
        ++ ("2. Blend the " ++ customFeature customReferencePrompt ++ " naturally with the Source Character while preserving their identity.\n")
  | none => ""

/-- The instruction text of the editing path (lines 250-308): the
dual-image preamble with optional guidance injection and mode directive
when a reference is present, the single-image preamble otherwise, and the
user prompt appended when it is truthy and does not trim to nothing. -/
def composeInstruction (hasRef : Bool) (mode : Option ReferenceMode)
    (customReferencePrompt : Option String) (guidanceDescription : String)
    (prompt : String) : String :=
  let base :=
    if hasRef then
      let i1 :=
        "I have provided TWO images above.\n"
          ++ "- First Image: Source Character (The person to be modified).\n"
          ++ "- Second Image: Reference Style/Attribute.\n\n"
          ++ "TASK: Create a high-quality NEW image of the Source Character that adopts the specific attribute from the Reference Image.\n"
          ++ "IMPORTANT: Maintain the facial identity and physical likeness of the Source Character.\n"
      let i2 := if guidanceDescription ≠ "" then i1 ++ guidanceDescription ++ "\n" else i1
      i2 ++ modeDirective mode customReferencePrompt
    else
      "I have provided ONE image. It is the Source Image.\n"
        ++ "TASK: Edit this image based on the user instructions. PRESERVE IDENTITY.\n"
  if prompt ≠ "" ∧ prompt.trim ≠ "" then
    base ++ ("\nUSER INSTRUCTIONS: \"" ++ prompt ++ "\"\n")
  else base

/-- A part of an edit-call response candidate (lines 348-354). -/
inductive ResponsePart where
  | inlineData (data : String)
  | text (content : String)
deriving DecidableEq, Repr

/-- `part.inlineData` test of the response loop. -/
def ResponsePart.inlineDatum : ResponsePart → Option String
  | .inlineData d => some d
  | .text _ => none

/-- A response candidate: `finishReason` and `content?.parts` (a missing
`content` or missing `parts` is `none`). -/
structure Candidate where
  finishReason : Option String
  parts : Option (List ResponsePart)
deriving DecidableEq, Repr

/-- The edit-call response: its (possibly empty) candidate list. -/
structure EditResponse where
  candidates : List Candidate
deriving DecidableEq, Repr

/-- Error message of line 336. -/
def noResponseMessage : String := "No response from AI model."

/-- The reason-specific blocked message of line 343. -/
def blockedSpecificMessage (reason : String) : String :=
  "Generation blocked: The request was flagged for " ++ reason
    ++ " (likely too close to a protected image or person). Try a different reference."

/-- The generic blocked-by-filter message of line 345. -/
def blockedGenericMessage (reason : String) : String :=
  "Generation blocked by filter: " ++ reason

/-- Error message of line 356. -/
def textInsteadOfImageMessage : String :=
  "The model generated a text response instead of an image. Please try adjusting your prompt."

/-- The `for` loop of lines 349-353: the first part carrying `inlineData`. -/
def firstInlineData : List ResponsePart → Option String
  | [] => none
  | .inlineData d :: _ => some d
  | .text _ :: rest => firstInlineData rest

/-- Response interpretation of the editing path (lines 333-356): no
candidate fails with `noResponseMessage`; a truthy finish reason other than
`STOP` fails with the reason-classified blocked message; otherwise the
first inline-data part is returned, and a candidate without one fails with
`textInsteadOfImageMessage`. -/
def interpretEditResponse (response : EditResponse) : Except String String :=
  match response.candidates.head? with
  | none => .error noResponseMessage
  | some candidate =>
    if truthyStr candidate.finishReason ∧ candidate.finishReason ≠ some "STOP" then
      let reason := candidate.finishReason.getD ""
      if reason = "RECITATION" ∨ reason = "IMAGE_RECITATION" ∨ reason = "SAFETY" then
        .error (blockedSpecificMessage reason)
      else
        .error (blockedGenericMessage reason)
    else
      match candidate.parts with
      | some ps =>
        match firstInlineData ps with
        | some d => .ok d
        | none => .error textInsteadOfImageMessage
      | none => .error textInsteadOfImageMessage

/-! ## Theorems -/

/-- C7: in the editing path the parts list sent to the remote edit endpoint
is always in the fixed order source image part, reference image part when a
reference is present, instruction text part last. -/
theorem buildEditParts_order (s r : CompressedImage) (instruction : String) :
    buildEditParts s (some r) instruction =
      [RequestPart.inlineData s.data s.mimeType,
       RequestPart.inlineData r.data r.mimeType,
       RequestPart.text instruction] ∧
    buildEditParts s none instruction =
      [RequestPart.inlineData s.data s.mimeType, RequestPart.text instruction] :=
  ⟨rfl, rfl⟩

/-- C10: when both decoded dimensions are at most 1024, `compressImage`
keeps them exactly (the scaling branch is skipped) and only re-encodes,
always as JPEG. -/
theorem compressImage_no_upscale (w h : ℕ) (encoded : String)
    (hw : w ≤ MAX_SIZE) (hh : h ≤ MAX_SIZE) :
    compressImage w h encoded =
      { data := encoded, mimeType := "image/jpeg", width := w, height := h } := by
  have hcond : ¬(w > MAX_SIZE ∨ h > MAX_SIZE) := by omega
  simp [compressImage, compressDims, hcond]

/-- Witness for C10 at a concrete 800 by 600 input. -/
theorem compressImage_no_upscale_witness :
    compressImage 800 600 "payload" =
      { data := "payload", mimeType := "image/jpeg", width := 800, height := 600 } :=
  compressImage_no_upscale 800 600 "payload" (by decide) (by decide)

/-- C2: an operation that fails with a rate-limit-classified error on its
first two invocations and succeeds on the third makes
`retryOperation op 3 2000` return the third invocation's result, invoke the
operation exactly 3 times, and sleep 2000 ms then 4000 ms in between. -/
theorem retryOperation_rateLimit_thirdSuccess {α : Type}
    (op : ℕ → Except JsError α) (e0 e1 : JsError) (a : α)
    (h0 : op 0 = .error e0) (h1 : op 1 = .error e1) (h2 : op 2 = .ok a)
    (r0 : isRateLimit e0 = true) (r1 : isRateLimit e1 = true) :
    retryOperation op 3 2000 = ⟨.ok a, 3, [2000, 4000]⟩ := by
  rw [retryOperation, if_neg (by omega)]
  rw [retryFrom, h0]
  simp only [r0, true_and]
  rw [dif_pos (by omega)]
  rw [retryFrom, h1]
  simp only [r1, true_and]
  rw [dif_pos (by omega)]
  rw [retryFrom, h2]
  rfl

/-- The operation of the C2 witness: two rate-limited failures, then `42`. -/
def rateLimitedTwiceOp : ℕ → Except JsError ℕ :=
  fun i => if i < 2 then .error ⟨some "429 RESOURCE_EXHAUSTED", "", some 429, none⟩ else .ok 42

/-- Witness for C2 on `rateLimitedTwiceOp`. -/
theorem retryOperation_rateLimit_thirdSuccess_witness :
    retryOperation rateLimitedTwiceOp 3 2000 = ⟨.ok 42, 3, [2000, 4000]⟩ :=
  retryOperation_rateLimit_thirdSuccess rateLimitedTwiceOp
    ⟨some "429 RESOURCE_EXHAUSTED", "", some 429, none⟩
    ⟨some "429 RESOURCE_EXHAUSTED", "", some 429, none⟩ 42
    rfl rfl rfl (by decide) (by decide)

/-- C3: an operation whose first invocation fails with an error that is not
rate-limit-classified makes `retryOperation op 3 2000` re-raise exactly
that error after exactly one invocation with no delay. -/
theorem retryOperation_nonRateLimit_immediate {α : Type}
    (op : ℕ → Except JsError α) (e : JsError)
    (h0 : op 0 = .error e) (hr : isRateLimit e = false) :
    retryOperation op 3 2000 = ⟨.error e, 1, []⟩ := by
  rw [retryOperation, if_neg (by omega)]
  rw [retryFrom, h0]
  simp [hr]

/-- The operation of the C3 witness: a single unclassified failure. -/
def plainFailureOp : ℕ → Except JsError ℕ :=
  fun _ => .error ⟨some "boom", "", none, none⟩

/-- Witness for C3 on `plainFailureOp`. -/
theorem retryOperation_nonRateLimit_immediate_witness :
    retryOperation plainFailureOp 3 2000 =
      ⟨.error ⟨some "boom", "", none, none⟩, 1, []⟩ :=
  retryOperation_nonRateLimit_immediate plainFailureOp
    ⟨some "boom", "", none, none⟩ rfl (by decide)

/-- The rejection `compressImage` produces when the image cannot be decoded
(line 58). -/
def processFailedError : JsError := ⟨some "Failed to process image", "", none, none⟩

/-- C1 counterexample: with the credential present but image compression
failing, `extractFeatureDescription` propagates the compression error
instead of returning the empty string the claim requires. -/
theorem extractFeatureDescription_compressFailure_propagates :
    extractFeatureDescription ReferenceMode.POSE none (some "key")
        (.error processFailedError) (fun _ => .ok ⟨some "a pose"⟩) =
      .error processFailedError ∧
    (Except.error processFailedError : Except JsError String) ≠ .ok "" := by
  exact ⟨rfl, by simp⟩

/-- C1 (amended): a missing credential propagates its error, a compression
failure propagates its error, and any failure of the remote analysis call
that survives the retry wrapper is absorbed into the empty string (a
successful call returns its text, with `""` for an absent text). -/
theorem extractFeatureDescription_absorption (mode : ReferenceMode)
    (customPrompt : Option String) (key : String) (e : JsError)
    (c : CompressedImage) (comp : Except JsError CompressedImage)
    (attempts : ℕ → Except JsError AnalysisResponse) (resp : AnalysisResponse) :
    extractFeatureDescription mode customPrompt none comp attempts =
        .error apiKeyMissing ∧
    extractFeatureDescription mode customPrompt (some key) (.error e) attempts =
        .error e ∧
    ((retryOperation attempts 3 2000).result = .error e →
      extractFeatureDescription mode customPrompt (some key) (.ok c) attempts =
        .ok "") ∧
    ((retryOperation attempts 3 2000).result = .ok resp →
      extractFeatureDescription mode customPrompt (some key) (.ok c) attempts =
        .ok (resp.text.getD "")) := by
  refine ⟨rfl, rfl, ?_, ?_⟩ <;> intro hres <;> simp [extractFeatureDescription, hres]

/-- `getClosestSupportedRatio` only ever returns one of the five supported
ratio strings. -/
lemma getClosestSupportedRatio_mem (w h : ℚ) :
    getClosestSupportedRatio w h = "1:1" ∨ getClosestSupportedRatio w h = "3:4" ∨
    getClosestSupportedRatio w h = "4:3" ∨ getClosestSupportedRatio w h = "9:16" ∨
    getClosestSupportedRatio w h = "16:9" := by
  simp only [getClosestSupportedRatio, supportedRatios, List.foldl]
  split_ifs <;> simp

/-- The Imagen aspect mapping only emits that model's five literals. -/
lemma imagenAspect_ne_sameAsSource (t : String) :
    imagenAspect t ≠ "SAME_AS_SOURCE" := by
  unfold imagenAspect
  split_ifs <;> decide

/-- C4: the literal `SAME_AS_SOURCE` never survives aspect-ratio
resolution, on either remote path: a `SAME_AS_SOURCE` request with both
source dimensions truthy resolves through `getClosestSupportedRatio`, and
otherwise deterministically becomes `1:1`. -/
theorem resolveTargetRatio_never_sameAsSource (cfg : AspectRatio)
    (w h : Option ℕ) :
    resolveTargetRatio cfg w h ≠ "SAME_AS_SOURCE" ∧
    imagenAspect (resolveTargetRatio cfg w h) ≠ "SAME_AS_SOURCE" ∧
    resolveTargetRatio .SAME_AS_SOURCE w h =
      (if truthyNat w && truthyNat h then
        getClosestSupportedRatio ((w.getD 0 : ℕ) : ℚ) ((h.getD 0 : ℕ) : ℚ)
       else "1:1") := by
  refine ⟨?_, imagenAspect_ne_sameAsSource _, ?_⟩
  · unfold resolveTargetRatio
    split_ifs with h1 h2
    · rcases getClosestSupportedRatio_mem ((w.getD 0 : ℕ) : ℚ) ((h.getD 0 : ℕ) : ℚ)
        with hg | hg | hg | hg | hg <;> simp [hg]
    · decide
    · cases cfg <;> simp_all [AspectRatio.raw]
  · cases hw : truthyNat w <;> cases hh : truthyNat h <;>
      simp [resolveTargetRatio, hw, hh, AspectRatio.raw]

/-- A string starting with a nonempty literal is nonempty. -/
lemma append_ne_empty_of_left (a b : String) (ha : a ≠ "") : a ++ b ≠ "" := by
  intro hcontra
  apply ha
  have hl := congrArg String.length hcontra
  rw [String.length_append] at hl
  have h0 : ("" : String).length = 0 := rfl
  have ha0 : a.length = 0 := by omega
  cases a with
  | mk data =>
    cases data with
    | nil => rfl
    | cons c cs => simp [String.length] at ha0

/-- C9: a Custom-mode request never carries an empty feature placeholder:
the substituted feature string is never empty (falling back to the literal
`feature`), the Custom analysis question is never empty (falling back to
the generic description request), and the Custom transfer directive embeds
the substituted feature after a nonempty prefix. -/
theorem customMode_nonempty_feature (p : Option String) :
    customFeature p ≠ "" ∧
    extractionPrompt .CUSTOM p ≠ "" ∧
    customFeature none = "feature" ∧
    customFeature (some "") = "feature" ∧
    extractionPrompt .CUSTOM none =
      "Describe the key distinctive visual attributes of this image." ∧
    extractionPrompt .CUSTOM (some "") =
      "Describe the key distinctive visual attributes of this image." ∧
    (∃ pre post, pre ≠ "" ∧
      modeDirective (some .CUSTOM) p = pre ++ customFeature p ++ post) := by
  refine ⟨?_, ?_, rfl, rfl, rfl, rfl, ?_⟩
  · cases p with
    | none => decide
    | some s =>
      by_cases hs : s = "" <;> simp [customFeature, hs]
  · cases p with
    | none => decide
    | some s =>
      by_cases hs : s = ""
      · simp [extractionPrompt, hs]
      · simp only [extractionPrompt, hs, if_neg]
        exact append_ne_empty_of_left _ _ (append_ne_empty_of_left _ _ (by decide))
  · refine ⟨"\nMODE: CUSTOM TRANSFER (",
      ")\n" ++ ("1. Transfer the " ++ customFeature p ++ " from the Reference Image to the Source Character.\n")
        ++ ("2. Blend the " ++ customFeature p ++ " naturally with the Source Character while preserving their identity.\n"),
      by decide, ?_⟩
    simp [modeDirective, String.append_assoc]

/-- A part list without inline data yields no image. -/
lemma firstInlineData_eq_none (ps : List ResponsePart)
    (hp : ∀ p ∈ ps, p.inlineDatum = none) : firstInlineData ps = none := by
  induction ps with
  | nil => rfl
  | cons p rest ih =>
    cases p with
    | inlineData d =>
      have hd := hp (ResponsePart.inlineData d) (by simp)
      simp [ResponsePart.inlineDatum] at hd
    | text s =>
      rw [firstInlineData]
      exact ih fun q hq => hp q (by simp [hq])

/-- A string built around `pat` includes `pat`. -/
lemma includes_append_middle (pre pat post : String) :
    includes (pre ++ pat ++ post) pat = true := by
  apply decide_eq_true
  exact ⟨pre.toList, post.toList, by simp [String.toList, String.data_append]⟩

/-- C8: editing-path response interpretation fails as classified: an absent
candidate fails with the no-response error; a first candidate whose finish
reason is truthy and abnormal fails with the reason-specific message (which
quotes the reason and suggests a different reference) for RECITATION,
IMAGE_RECITATION and SAFETY and with the generic blocked-by-filter message
otherwise; a normally finished candidate carrying only text parts fails
with the text-instead-of-image error. -/
theorem interpretEditResponse_failures (candidate : Candidate)
    (rest : List Candidate) (r : String) (ps : List ResponsePart) :
    interpretEditResponse ⟨[]⟩ = .error noResponseMessage ∧
    (candidate.finishReason = some r → r ≠ "" → r ≠ "STOP" →
      interpretEditResponse ⟨candidate :: rest⟩ =
        .error (if r = "RECITATION" ∨ r = "IMAGE_RECITATION" ∨ r = "SAFETY"
          then blockedSpecificMessage r else blockedGenericMessage r)) ∧
    (includes (blockedSpecificMessage r) r = true ∧
      includes (blockedSpecificMessage r) "Try a different reference." = true) ∧
    ((candidate.finishReason = none ∨ candidate.finishReason = some "STOP") →
      candidate.parts = some ps → (∀ p ∈ ps, p.inlineDatum = none) →
      interpretEditResponse ⟨candidate :: rest⟩ =
        .error textInsteadOfImageMessage) := by
  refine ⟨rfl, ?_, ⟨?_, ?_⟩, ?_⟩
  · intro hfr hne hstop
    simp only [interpretEditResponse, List.head?, hfr]
    rw [if_pos]
    · simp only [Option.getD]
      split_ifs <;> rfl
    · constructor
      · simp [truthyStr, hne]
      · simp [hstop]
  · exact includes_append_middle
      "Generation blocked: The request was flagged for " r
      " (likely too close to a protected image or person). Try a different reference."
  · have hsplit : blockedSpecificMessage r =
        ("Generation blocked: The request was flagged for " ++ r
          ++ " (likely too close to a protected image or person). ")
          ++ "Try a different reference." ++ "" := by
      simp [blockedSpecificMessage, String.append_assoc]
    rw [hsplit]
    exact includes_append_middle _ _ _
  · intro hfr hparts htext
    have hcond : ¬(truthyStr candidate.finishReason ∧
        candidate.finishReason ≠ some "STOP") := by
      rcases hfr with hfr | hfr <;> simp [hfr, truthyStr]
    simp only [interpretEditResponse, List.head?, hparts, hcond, if_false,
      firstInlineData_eq_none ps htext]

/-- Casting a nonnegative integer through `toNat` into ℚ is the identity. -/
lemma toNat_cast_q (j : ℤ) (hj : 0 ≤ j) : ((j.toNat : ℚ)) = (j : ℚ) := by
  exact_mod_cast Int.toNat_of_nonneg hj

/-- `Math.round` of a value at most `B` stays at most `B`. -/
lemma jsRound_toNat_le (x : ℚ) (B : ℕ) (hx : x ≤ B) : (jsRound x).toNat ≤ B := by
  rw [Int.toNat_le]
  have h1 : (jsRound x : ℚ) ≤ x + 1/2 := Int.floor_le _
  have h2 : (jsRound x : ℚ) < (B : ℚ) + 1 := by linarith
  have h3 : jsRound x < (B : ℤ) + 1 := by exact_mod_cast h2
  omega

/-- `Math.round` of a nonnegative value lands within 1 of it. -/
lemma jsRound_toNat_close (x : ℚ) (hx : 0 ≤ x) :
    |((jsRound x).toNat : ℚ) - x| ≤ 1 := by
  have hnn : 0 ≤ jsRound x := Int.floor_nonneg.mpr (by linarith)
  have heq : ((jsRound x).toNat : ℚ) = (jsRound x : ℚ) := toNat_cast_q _ hnn
  have h1 : (jsRound x : ℚ) ≤ x + 1/2 := Int.floor_le _
  have h2 : x + 1/2 - 1 < (jsRound x : ℚ) := Int.sub_one_lt_floor _
  rw [heq, abs_le]
  constructor <;> linarith

/-- What C6 asserts of `compressImage` on a decodable image of the given
dimensions: the longer output dimension never exceeds `MAX_SIZE`, the
output mime type is always `image/jpeg`, and whenever a dimension exceeds
`MAX_SIZE` the longer one is pinned to `MAX_SIZE` while the shorter lands
within one pixel of the exactly scaled value. -/
def CompressDimsClaim (w h : ℕ) (encoded : String) : Prop :=
  max (compressImage w h encoded).width (compressImage w h encoded).height ≤ MAX_SIZE ∧
  (compressImage w h encoded).mimeType = "image/jpeg" ∧
  (MAX_SIZE < w ∨ MAX_SIZE < h →
    if h < w then
      (compressImage w h encoded).width = MAX_SIZE ∧
        |((compressImage w h encoded).height : ℚ) -
          ((h : ℚ) * (MAX_SIZE : ℚ)) / (w : ℚ)| ≤ 1
    else
      (compressImage w h encoded).height = MAX_SIZE ∧
        |((compressImage w h encoded).width : ℚ) -
          ((w : ℚ) * (MAX_SIZE : ℚ)) / (h : ℚ)| ≤ 1)

/-- C6: the output of `compressImage` never exceeds 1024 in its longer
dimension, preserves the aspect ratio within one pixel of exact scaling
whenever scaling happens, and always carries the JPEG mime type. -/
theorem compressImage_dims_spec (w h : ℕ) (encoded : String)
    (hw : 0 < w) (hh : 0 < h) : CompressDimsClaim w h encoded := by
  unfold CompressDimsClaim compressImage compressDims
  by_cases hbig : w > MAX_SIZE ∨ h > MAX_SIZE
  · rw [if_pos hbig]
    by_cases hwh : w > h
    · rw [if_pos hwh]
      have hwq : (0 : ℚ) < (w : ℚ) := by exact_mod_cast hw
      have hxnn : (0 : ℚ) ≤ ((h : ℚ) * (MAX_SIZE : ℚ)) / (w : ℚ) := by positivity
      have hxle : ((h : ℚ) * (MAX_SIZE : ℚ)) / (w : ℚ) ≤ (MAX_SIZE : ℕ) := by
        rw [div_le_iff₀ hwq]
        have hhw : (h : ℚ) ≤ (w : ℚ) := by exact_mod_cast Nat.le_of_lt hwh
        have : (0 : ℚ) ≤ (MAX_SIZE : ℚ) := by positivity
        nlinarith
      refine ⟨?_, rfl, ?_⟩
      · simp only [max_le_iff]
        exact ⟨le_refl _, jsRound_toNat_le _ _ hxle⟩
      · intro _
        rw [if_pos hwh]
        exact ⟨rfl, jsRound_toNat_close _ hxnn⟩
    · rw [if_neg hwh]
      have hle : w ≤ h := Nat.le_of_not_lt hwh
      have hhq : (0 : ℚ) < (h : ℚ) := by exact_mod_cast hh
      have hxnn : (0 : ℚ) ≤ ((w : ℚ) * (MAX_SIZE : ℚ)) / (h : ℚ) := by positivity
      have hxle : ((w : ℚ) * (MAX_SIZE : ℚ)) / (h : ℚ) ≤ (MAX_SIZE : ℕ) := by
        rw [div_le_iff₀ hhq]
        have hwhq : (w : ℚ) ≤ (h : ℚ) := by exact_mod_cast hle
        have : (0 : ℚ) ≤ (MAX_SIZE : ℚ) := by positivity
        nlinarith
      refine ⟨?_, rfl, ?_⟩
      · simp only [max_le_iff]
        exact ⟨jsRound_toNat_le _ _ hxle, le_refl _⟩
      · intro _
        rw [if_neg hwh]
        exact ⟨rfl, jsRound_toNat_close _ hxnn⟩
  · rw [if_neg hbig]
    push_neg at hbig
    refine ⟨?_, rfl, ?_⟩
    · simp only [max_le_iff]
      exact hbig
    · intro hcontra
      rcases hcontra with hc | hc
      · exact absurd hc (not_lt.mpr hbig.1)
      · exact absurd hc (not_lt.mpr hbig.2)

/-- Witness for C6 at a concrete 2048 by 1000 input: both hypotheses hold. -/
theorem compressImage_dims_spec_witness :
    CompressDimsClaim 2048 1000 "payload" :=
  compressImage_dims_spec 2048 1000 "payload" (by decide) (by decide)

/-- For `a < b`, the value `a` is strictly closer to `r` than `b` exactly
below their midpoint. -/
lemma absCmp_lt {a b r : ℚ} (hab : a < b) : |a - r| < |b - r| ↔ r < (a + b)/2 := by
  rcases abs_cases (a - r) with ⟨e1, s1⟩ | ⟨e1, s1⟩ <;>
    rcases abs_cases (b - r) with ⟨e2, s2⟩ | ⟨e2, s2⟩ <;>
    rw [e1, e2] <;> constructor <;> intro hx <;> linarith

/-- For `a < b`, the value `b` is strictly closer to `r` than `a` exactly
above their midpoint. -/
lemma absCmp_lt_rev {a b r : ℚ} (hab : a < b) : |b - r| < |a - r| ↔ (a + b)/2 < r := by
  rcases abs_cases (a - r) with ⟨e1, s1⟩ | ⟨e1, s1⟩ <;>
    rcases abs_cases (b - r) with ⟨e2, s2⟩ | ⟨e2, s2⟩ <;>
    rw [e1, e2] <;> constructor <;> intro hx <;> linarith

/-- For `a < b`, the value `a` is at least as close to `r` as `b` exactly
at or below their midpoint. -/
lemma absCmp_le {a b r : ℚ} (hab : a < b) : |a - r| ≤ |b - r| ↔ r ≤ (a + b)/2 := by
  rcases abs_cases (a - r) with ⟨e1, s1⟩ | ⟨e1, s1⟩ <;>
    rcases abs_cases (b - r) with ⟨e2, s2⟩ | ⟨e2, s2⟩ <;>
    rw [e1, e2] <;> constructor <;> intro hx <;> linarith

/-- For `a < b`, the value `b` is at least as close to `r` as `a` exactly
at or above their midpoint. -/
lemma absCmp_le_rev {a b r : ℚ} (hab : a < b) : |b - r| ≤ |a - r| ↔ (a + b)/2 ≤ r := by
  rcases abs_cases (a - r) with ⟨e1, s1⟩ | ⟨e1, s1⟩ <;>
    rcases abs_cases (b - r) with ⟨e2, s2⟩ | ⟨e2, s2⟩ <;>
    rw [e1, e2] <;> constructor <;> intro hx <;> linarith

/-- Below 21/32 (the 9:16-to-3:4 midpoint) the reduce picks 9:16. -/
lemma getClosest_region_916 (w h : ℚ) (hr : w / h < 21/32) :
    getClosestSupportedRatio w h = "9:16" := by
  simp only [getClosestSupportedRatio, supportedRatios, List.foldl]
  rw [if_pos (show |3/4 - w / h| < |1 - w / h| from
    (absCmp_lt (by norm_num)).mpr (by linarith))]
  dsimp only
  rw [if_neg (show ¬(|133/100 - w / h| < |3/4 - w / h|) from by
    rw [absCmp_lt_rev (by norm_num)]; intro hx; linarith)]
  dsimp only
  rw [if_pos (show |9/16 - w / h| < |3/4 - w / h| from
    (absCmp_lt (by norm_num)).mpr (by linarith))]
  dsimp only
  rw [if_neg (show ¬(|177/100 - w / h| < |9/16 - w / h|) from by
    rw [absCmp_lt_rev (by norm_num)]; intro hx; linarith)]

/-- Between 21/32 and 7/8 (the 3:4-to-1:1 midpoint) the reduce picks 3:4. -/
lemma getClosest_region_34 (w h : ℚ) (hr1 : 21/32 ≤ w / h) (hr2 : w / h < 7/8) :
    getClosestSupportedRatio w h = "3:4" := by
  simp only [getClosestSupportedRatio, supportedRatios, List.foldl]
  rw [if_pos (show |3/4 - w / h| < |1 - w / h| from
    (absCmp_lt (by norm_num)).mpr (by linarith))]
  dsimp only
  rw [if_neg (show ¬(|133/100 - w / h| < |3/4 - w / h|) from by
    rw [absCmp_lt_rev (by norm_num)]; intro hx; linarith)]
  dsimp only
  rw [if_neg (show ¬(|9/16 - w / h| < |3/4 - w / h|) from by
    rw [absCmp_lt (by norm_num)]; intro hx; linarith)]
  dsimp only
  rw [if_neg (show ¬(|177/100 - w / h| < |3/4 - w / h|) from by
    rw [absCmp_lt_rev (by norm_num)]; intro hx; linarith)]

/-- Between 7/8 and 233/200 (the 1:1-to-4:3 midpoint, inclusive: an exact
tie keeps the earlier entry) the reduce picks 1:1. -/
lemma getClosest_region_11 (w h : ℚ) (hr1 : 7/8 ≤ w / h) (hr2 : w / h ≤ 233/200) :
    getClosestSupportedRatio w h = "1:1" := by
  simp only [getClosestSupportedRatio, supportedRatios, List.foldl]
  rw [if_neg (show ¬(|3/4 - w / h| < |1 - w / h|) from by
    rw [absCmp_lt (by norm_num)]; intro hx; linarith)]
  dsimp only
  rw [if_neg (show ¬(|133/100 - w / h| < |1 - w / h|) from by
    rw [absCmp_lt_rev (by norm_num)]; intro hx; linarith)]
  dsimp only
  rw [if_neg (show ¬(|9/16 - w / h| < |1 - w / h|) from by
    rw [absCmp_lt (by norm_num)]; intro hx; linarith)]
  dsimp only
  rw [if_neg (show ¬(|177/100 - w / h| < |1 - w / h|) from by
    rw [absCmp_lt_rev (by norm_num)]; intro hx; linarith)]

/-- Between 233/200 (exclusive) and 31/20 (the 4:3-to-16:9 midpoint,
inclusive) the reduce picks 4:3. -/
lemma getClosest_region_43 (w h : ℚ) (hr1 : 233/200 < w / h) (hr2 : w / h ≤ 31/20) :
    getClosestSupportedRatio w h = "4:3" := by
  simp only [getClosestSupportedRatio, supportedRatios, List.foldl]
  rw [if_neg (show ¬(|3/4 - w / h| < |1 - w / h|) from by
    rw [absCmp_lt (by norm_num)]; intro hx; linarith)]
  dsimp only
  rw [if_pos (show |133/100 - w / h| < |1 - w / h| from
    (absCmp_lt_rev (by norm_num)).mpr (by linarith))]
  dsimp only
  rw [if_neg (show ¬(|9/16 - w / h| < |133/100 - w / h|) from by
    rw [absCmp_lt (by norm_num)]; intro hx; linarith)]
  dsimp only
  rw [if_neg (show ¬(|177/100 - w / h| < |133/100 - w / h|) from by
    rw [absCmp_lt_rev (by norm_num)]; intro hx; linarith)]

/-- Above 31/20 the reduce picks 16:9. -/
lemma getClosest_region_169 (w h : ℚ) (hr : 31/20 < w / h) :
    getClosestSupportedRatio w h = "16:9" := by
  simp only [getClosestSupportedRatio, supportedRatios, List.foldl]
  rw [if_neg (show ¬(|3/4 - w / h| < |1 - w / h|) from by
    rw [absCmp_lt (by norm_num)]; intro hx; linarith)]
  dsimp only
  rw [if_pos (show |133/100 - w / h| < |1 - w / h| from
    (absCmp_lt_rev (by norm_num)).mpr (by linarith))]
  dsimp only
  rw [if_neg (show ¬(|9/16 - w / h| < |133/100 - w / h|) from by
    rw [absCmp_lt (by norm_num)]; intro hx; linarith)]
  dsimp only
  rw [if_pos (show |177/100 - w / h| < |133/100 - w / h| from
    (absCmp_lt_rev (by norm_num)).mpr (by linarith))]

/-- What C5 asserts of `getClosestSupportedRatio` at positive integer
dimensions: the result is the entry of the fixed list whose value is at
minimum absolute distance from `w / h`, with exact ties resolved toward the
earlier entry of the list order 1:1, 3:4, 4:3, 9:16, 16:9 (strict
inequality against every earlier entry, weak against every later one);
a landscape input never yields a portrait entry, and a square input yields
1:1. -/
def ClosestRatioClaim (w h : ℕ) : Prop :=
  ((getClosestSupportedRatio (w : ℚ) (h : ℚ) = "1:1" ∧
      |1 - (w : ℚ) / (h : ℚ)| ≤ |3/4 - (w : ℚ) / (h : ℚ)| ∧
      |1 - (w : ℚ) / (h : ℚ)| ≤ |133/100 - (w : ℚ) / (h : ℚ)| ∧
      |1 - (w : ℚ) / (h : ℚ)| ≤ |9/16 - (w : ℚ) / (h : ℚ)| ∧
      |1 - (w : ℚ) / (h : ℚ)| ≤ |177/100 - (w : ℚ) / (h : ℚ)|) ∨
    (getClosestSupportedRatio (w : ℚ) (h : ℚ) = "3:4" ∧
      |3/4 - (w : ℚ) / (h : ℚ)| < |1 - (w : ℚ) / (h : ℚ)| ∧
      |3/4 - (w : ℚ) / (h : ℚ)| ≤ |133/100 - (w : ℚ) / (h : ℚ)| ∧
      |3/4 - (w : ℚ) / (h : ℚ)| ≤ |9/16 - (w : ℚ) / (h : ℚ)| ∧
      |3/4 - (w : ℚ) / (h : ℚ)| ≤ |177/100 - (w : ℚ) / (h : ℚ)|) ∨
    (getClosestSupportedRatio (w : ℚ) (h : ℚ) = "4:3" ∧
      |133/100 - (w : ℚ) / (h : ℚ)| < |1 - (w : ℚ) / (h : ℚ)| ∧
      |133/100 - (w : ℚ) / (h : ℚ)| < |3/4 - (w : ℚ) / (h : ℚ)| ∧
      |133/100 - (w : ℚ) / (h : ℚ)| ≤ |9/16 - (w : ℚ) / (h : ℚ)| ∧
      |133/100 - (w : ℚ) / (h : ℚ)| ≤ |177/100 - (w : ℚ) / (h : ℚ)|) ∨
    (getClosestSupportedRatio (w : ℚ) (h : ℚ) = "9:16" ∧
      |9/16 - (w : ℚ) / (h : ℚ)| < |1 - (w : ℚ) / (h : ℚ)| ∧
      |9/16 - (w : ℚ) / (h : ℚ)| < |3/4 - (w : ℚ) / (h : ℚ)| ∧
      |9/16 - (w : ℚ) / (h : ℚ)| < |133/100 - (w : ℚ) / (h : ℚ)| ∧
      |9/16 - (w : ℚ) / (h : ℚ)| ≤ |177/100 - (w : ℚ) / (h : ℚ)|) ∨
    (getClosestSupportedRatio (w : ℚ) (h : ℚ) = "16:9" ∧
      |177/100 - (w : ℚ) / (h : ℚ)| < |1 - (w : ℚ) / (h : ℚ)| ∧
      |177/100 - (w : ℚ) / (h : ℚ)| < |3/4 - (w : ℚ) / (h : ℚ)| ∧
      |177/100 - (w : ℚ) / (h : ℚ)| < |133/100 - (w : ℚ) / (h : ℚ)| ∧
      |177/100 - (w : ℚ) / (h : ℚ)| < |9/16 - (w : ℚ) / (h : ℚ)|)) ∧
  (h < w → getClosestSupportedRatio (w : ℚ) (h : ℚ) ≠ "3:4" ∧
    getClosestSupportedRatio (w : ℚ) (h : ℚ) ≠ "9:16") ∧
  (w = h → getClosestSupportedRatio (w : ℚ) (h : ℚ) = "1:1")

/-- C5: for every positive width and height, `getClosestSupportedRatio`
returns the minimum-distance entry of the fixed supported list with exact
ties resolved toward the earlier entry; a strictly landscape input never
resolves to a portrait ratio, and a square input resolves to 1:1. -/
theorem getClosestSupportedRatio_spec (w h : ℕ) (hw : 0 < w) (hh : 0 < h) :
    ClosestRatioClaim w h := by
  have hhq : (0 : ℚ) < (h : ℚ) := by exact_mod_cast hh
  have hone : (h : ℚ) ≠ 0 := ne_of_gt hhq
  have hgt1 : h < w → 1 < (w : ℚ) / (h : ℚ) := by
    intro hlt
    rw [lt_div_iff₀ hhq, one_mul]
    exact_mod_cast hlt
  have heq1 : w = h → (w : ℚ) / (h : ℚ) = 1 := by
    intro hwh
    rw [hwh]
    exact div_self hone
  unfold ClosestRatioClaim
  rcases lt_or_le ((w : ℚ) / (h : ℚ)) (21/32) with h1 | h1
  · have hres := getClosest_region_916 (w : ℚ) (h : ℚ) h1
    rw [hres]
    refine ⟨Or.inr (Or.inr (Or.inr (Or.inl ⟨rfl, ?_, ?_, ?_, ?_⟩))), ?_, ?_⟩
    · exact (absCmp_lt (by norm_num)).mpr (by linarith)
    · exact (absCmp_lt (by norm_num)).mpr (by linarith)
    · exact (absCmp_lt (by norm_num)).mpr (by linarith)
    · exact (absCmp_le (by norm_num)).mpr (by linarith)
    · intro hlt
      have := hgt1 hlt
      exact absurd h1 (by push_neg; linarith)
    · intro hwh
      have := heq1 hwh
      exact absurd h1 (by push_neg; linarith)
  rcases lt_or_le ((w : ℚ) / (h : ℚ)) (7/8) with h2 | h2
  · have hres := getClosest_region_34 (w : ℚ) (h : ℚ) h1 h2
    rw [hres]
    refine ⟨Or.inr (Or.inl ⟨rfl, ?_, ?_, ?_, ?_⟩), ?_, ?_⟩
    · exact (absCmp_lt (by norm_num)).mpr (by linarith)
    · exact (absCmp_le (by norm_num)).mpr (by linarith)
    · exact (absCmp_le_rev (by norm_num)).mpr (by linarith)
    · exact (absCmp_le (by norm_num)).mpr (by linarith)
    · intro hlt
      have := hgt1 hlt
      exact absurd h2 (by push_neg; linarith)
    · intro hwh
      have := heq1 hwh
      exact absurd h2 (by push_neg; linarith)
  rcases le_or_lt ((w : ℚ) / (h : ℚ)) (233/200) with h3 | h3
  · have hres := getClosest_region_11 (w : ℚ) (h : ℚ) h2 h3
    rw [hres]
    refine ⟨Or.inl ⟨rfl, ?_, ?_, ?_, ?_⟩, ?_, ?_⟩
    · exact (absCmp_le_rev (by norm_num)).mpr (by linarith)
    · exact (absCmp_le (by norm_num)).mpr (by linarith)
    · exact (absCmp_le_rev (by norm_num)).mpr (by linarith)
    · exact (absCmp_le (by norm_num)).mpr (by linarith)
    · exact fun _ => ⟨by decide, by decide⟩
    · exact fun _ => rfl
  rcases le_or_lt ((w : ℚ) / (h : ℚ)) (31/20) with h4 | h4
  · have hres := getClosest_region_43 (w : ℚ) (h : ℚ) h3 h4
    rw [hres]
    refine ⟨Or.inr (Or.inr (Or.inl ⟨rfl, ?_, ?_, ?_, ?_⟩)), ?_, ?_⟩
    · exact (absCmp_lt_rev (by norm_num)).mpr (by linarith)
    · exact (absCmp_lt_rev (by norm_num)).mpr (by linarith)
    · exact (absCmp_le_rev (by norm_num)).mpr (by linarith)
    · exact (absCmp_le (by norm_num)).mpr (by linarith)
    · exact fun _ => ⟨by decide, by decide⟩
    · intro hwh
      have := heq1 hwh
      exact absurd h3 (by push_neg; linarith)
  · have hres := getClosest_region_169 (w : ℚ) (h : ℚ) h4
    rw [hres]
    refine ⟨Or.inr (Or.inr (Or.inr (Or.inr ⟨rfl, ?_, ?_, ?_, ?_⟩))), ?_, ?_⟩
    · exact (absCmp_lt_rev (by norm_num)).mpr (by linarith)
    · exact (absCmp_lt_rev (by norm_num)).mpr (by linarith)
    · exact (absCmp_lt_rev (by norm_num)).mpr (by linarith)
    · exact (absCmp_lt_rev (by norm_num)).mpr (by linarith)
    · exact fun _ => ⟨by decide, by decide⟩
    · intro hwh
      have := heq1 hwh
      exact absurd h4 (by push_neg; linarith)

/-- Witness for C5 at the concrete landscape input 800 by 600. -/
theorem getClosestSupportedRatio_spec_witness : ClosestRatioClaim 800 600 :=
  getClosestSupportedRatio_spec 800 600 (by decide) (by decide)

end FutureGen
